import Mathlib

/-!
Verification of `model_verification.cpp` (model signature verification for
MCU devices).

The file embeds the two functions of the source, `verify_model_signature`
and `load_model_safely`, shallowly in Lean.  The mbedTLS primitives are an
external trusted collaborator, so they are modelled as an abstract record of
response functions (`MbedTLS`); the embedded `verify_model_signature` is a
pure function of that record and the package, and it additionally returns
the trace of primitive calls, log lines and context init/free operations
performed by the run, mirroring the C control flow (including the
`goto cleanup` unified-release pattern) branch by branch.
-/

namespace ModelVerification

/-- Byte strings (`uint8_t*` buffers) are lists of naturals. -/
abbrev Bytes := List Nat

/-- The C struct `model_package_t`: payload pointer and size, detached
signature pointer and size, and the two diagnostic strings. -/
structure model_package_t where
  model_data : Bytes
  model_size : Nat
  signature : Bytes
  signature_size : Nat
  model_id : String
  model_version : String

/-- The `PUBLIC_KEY_PEM` macro constant embedded in the firmware image. -/
def PUBLIC_KEY_PEM : String :=
  "-----BEGIN PUBLIC KEY-----\n" ++
  "MFkwEwYHKoZIzj0CAQYIKoZIzj0CAQcDQgAE...\n" ++
  "-----END PUBLIC KEY-----\n"

/-- The mbedTLS primitives used by the source, as an abstract collaborator:
each field gives the integer return code of the corresponding library call
(0 = success, as in mbedTLS), and `sha256_digest` gives the 32-byte hash
that a successful `mbedtls_sha256_finish_ret` writes into `hash` after the
data was accumulated by `mbedtls_sha256_update_ret`.  `pk_verify` receives
the key that was parsed into the `pk` context, the digest, the signature
and the signature size, exactly the data flow of the C call. -/
structure MbedTLS where
  pk_parse_public_key : String → Int
  sha256_starts_ret : Int
  sha256_update_ret : Bytes → Nat → Int
  sha256_finish_ret : Int
  sha256_digest : Bytes → Nat → Bytes
  pk_verify : String → Bytes → Bytes → Nat → Int

/-- The three `printf` lines of `verify_model_signature`, kept structured so
that one can state which run emits which line and whether a line carries
the model identifier and version. -/
inductive LogMsg
  | parseFailed (ret : Int)
  | verified (id : String) (ver : String)
  | verifyFailed (ret : Int)

/-- One observable action of a run of `verify_model_signature`: context
initialization, a primitive call (with the arguments the C code passes),
a log line, or a context release. -/
inductive Event
  | pk_init
  | sha256_init
  | pk_parse_public_key (key : String)
  | sha256_starts (is224 : Nat)
  | sha256_update (data : Bytes) (len : Nat)
  | sha256_finish
  | pk_verify (key : String) (hash : Bytes) (hash_len : Nat) (sig : Bytes) (sig_len : Nat)
  | log (m : LogMsg)
  | pk_free
  | sha256_free

/-- Result of one run of `verify_model_signature`: the returned `int` and
the trace of events the run performed, in order. -/
structure VerifyResult where
  ret : Int
  trace : List Event

/-- Embedding of `verify_model_signature` from the source.  Each `if`
mirrors one `if (ret != 0) goto cleanup;` of the C code; every branch
appends the `cleanup:` label's `mbedtls_pk_free` / `mbedtls_sha256_free`
pair, and the function returns the last `ret` value, exactly as the C
function does. -/
def verify_model_signature (o : MbedTLS) (package : model_package_t) : VerifyResult :=
  let t1 : List Event :=
    [Event.pk_init, Event.sha256_init, Event.pk_parse_public_key PUBLIC_KEY_PEM]
  let retp := o.pk_parse_public_key PUBLIC_KEY_PEM
  if retp ≠ 0 then
    { ret := retp
      trace := t1 ++ [Event.log (LogMsg.parseFailed retp), Event.pk_free, Event.sha256_free] }
  else
    let rets := o.sha256_starts_ret
    let t2 := t1 ++ [Event.sha256_starts 0]
    if rets ≠ 0 then
      { ret := rets, trace := t2 ++ [Event.pk_free, Event.sha256_free] }
    else
      let retu := o.sha256_update_ret package.model_data package.model_size
      let t3 := t2 ++ [Event.sha256_update package.model_data package.model_size]
      if retu ≠ 0 then
        { ret := retu, trace := t3 ++ [Event.pk_free, Event.sha256_free] }
      else
        let retf := o.sha256_finish_ret
        let t4 := t3 ++ [Event.sha256_finish]
        if retf ≠ 0 then
          { ret := retf, trace := t4 ++ [Event.pk_free, Event.sha256_free] }
        else
          let hash := o.sha256_digest package.model_data package.model_size
          let retv := o.pk_verify PUBLIC_KEY_PEM hash package.signature package.signature_size
          let t5 := t4 ++
            [Event.pk_verify PUBLIC_KEY_PEM hash 32 package.signature package.signature_size]
          let t6 :=
            if retv = 0 then
              t5 ++ [Event.log (LogMsg.verified package.model_id package.model_version)]
            else
              t5 ++ [Event.log (LogMsg.verifyFailed retv)]
          { ret := retv, trace := t6 ++ [Event.pk_free, Event.sha256_free] }

/-- Embedding of `load_model_safely` from the source: verify first; any
non-zero verification result refuses to load with `-1`; otherwise load and
return `0`. -/
def load_model_safely (o : MbedTLS) (package : model_package_t) : Int :=
  let ret := (verify_model_signature o package).ret
  if ret ≠ 0 then -1 else 0

/-- The closed rejection taxonomy of the specification. -/
inductive RejectReason
  | KeyParseError
  | DigestComputationError
  | SignatureInvalid

/-- The tagged decision record of the specification. -/
inductive VerificationOutcome
  | Admitted
  | Rejected (reason : RejectReason)

/-- Whether a decision record is the `Admitted` outcome. -/
def VerificationOutcome.isAdmitted : VerificationOutcome → Bool
  | VerificationOutcome.Admitted => true
  | VerificationOutcome.Rejected _ => false

/-- The specification's classification of a run of the code: each exit path
of `verify_model_signature` (each `goto cleanup` site and the final return),
labelled with the rejection kind of the step that detected the failure. -/
def outcome (o : MbedTLS) (p : model_package_t) : VerificationOutcome :=
  if o.pk_parse_public_key PUBLIC_KEY_PEM ≠ 0 then
    VerificationOutcome.Rejected RejectReason.KeyParseError
  else if o.sha256_starts_ret ≠ 0 then
    VerificationOutcome.Rejected RejectReason.DigestComputationError
  else if o.sha256_update_ret p.model_data p.model_size ≠ 0 then
    VerificationOutcome.Rejected RejectReason.DigestComputationError
  else if o.sha256_finish_ret ≠ 0 then
    VerificationOutcome.Rejected RejectReason.DigestComputationError
  else if o.pk_verify PUBLIC_KEY_PEM (o.sha256_digest p.model_data p.model_size)
      p.signature p.signature_size ≠ 0 then
    VerificationOutcome.Rejected RejectReason.SignatureInvalid
  else
    VerificationOutcome.Admitted

/-- Selects the crypto-primitive calls of a trace (parse, the three hash
steps, and the signature check), discarding init/free and log events. -/
def isPrimitiveCall : Event → Bool
  | Event.pk_parse_public_key _ => true
  | Event.sha256_starts _ => true
  | Event.sha256_update _ _ => true
  | Event.sha256_finish => true
  | Event.pk_verify _ _ _ _ _ => true
  | _ => false

/-- The crypto-primitive calls of a trace, in order. -/
def primitiveCalls (t : List Event) : List Event :=
  t.filter isPrimitiveCall

/-- Recognizes the `mbedtls_pk_free` event. -/
def isPkFree : Event → Bool
  | Event.pk_free => true
  | _ => false

/-- Recognizes the `mbedtls_sha256_free` event. -/
def isSha256Free : Event → Bool
  | Event.sha256_free => true
  | _ => false

/-- The keys passed to `mbedtls_pk_parse_public_key` during a trace. -/
def keysParsed (t : List Event) : List String :=
  t.filterMap fun e =>
    match e with
    | Event.pk_parse_public_key k => some k
    | _ => none

/-- The log lines emitted during a trace, in order. -/
def logLines (t : List Event) : List LogMsg :=
  t.filterMap fun e =>
    match e with
    | Event.log m => some m
    | _ => none

/-- A collaborator on which every primitive succeeds and the signature
check accepts. -/
def oAllOk : MbedTLS where
  pk_parse_public_key := fun _ => 0
  sha256_starts_ret := 0
  sha256_update_ret := fun _ _ => 0
  sha256_finish_ret := 0
  sha256_digest := fun _ _ => List.replicate 32 0
  pk_verify := fun _ _ _ _ => 0

/-- A collaborator whose key parsing fails with the mbedTLS error code
`MBEDTLS_ERR_PK_KEY_INVALID_FORMAT` (-15616). -/
def oParseFail : MbedTLS :=
  { oAllOk with pk_parse_public_key := fun _ => -15616 }

/-- A collaborator whose `mbedtls_sha256_starts_ret` fails. -/
def oStartsFail : MbedTLS :=
  { oAllOk with sha256_starts_ret := -1 }

/-- A collaborator whose signature check fails with the mbedTLS error code
`MBEDTLS_ERR_ECP_VERIFY_FAILED` (-19968). -/
def oVerifyFail : MbedTLS :=
  { oAllOk with pk_verify := fun _ _ _ _ => -19968 }

/-- A concrete package. -/
def pA : model_package_t :=
  { model_data := [0], model_size := 1, signature := [1], signature_size := 1,
    model_id := "a", model_version := "1" }

/-- A concrete package differing from `pA` in every field. -/
def pB : model_package_t :=
  { model_data := [2, 3], model_size := 2, signature := [4, 5, 6], signature_size := 3,
    model_id := "b", model_version := "2" }

/-- `pA` with different diagnostic strings but identical payload and
signature. -/
def pA2 : model_package_t :=
  { model_data := [0], model_size := 1, signature := [1], signature_size := 1,
    model_id := "z", model_version := "9" }

/-- The empty-payload package. -/
def pEmpty : model_package_t :=
  { model_data := [], model_size := 0, signature := [7, 8], signature_size := 2,
    model_id := "m", model_version := "1.0" }

/-- C1: `verify_model_signature` returns success (0, the `Admitted`
outcome) exactly when key parsing, every digest step and the signature
check all return success; whenever any step fails the returned code is
non-zero and the outcome is not `Admitted` (fail-closed). -/
theorem verify_admitted_iff_all_steps_succeed (o : MbedTLS) (p : model_package_t) :
    ((verify_model_signature o p).ret = 0 ↔
      (o.pk_parse_public_key PUBLIC_KEY_PEM = 0 ∧
       o.sha256_starts_ret = 0 ∧
       o.sha256_update_ret p.model_data p.model_size = 0 ∧
       o.sha256_finish_ret = 0 ∧
       o.pk_verify PUBLIC_KEY_PEM (o.sha256_digest p.model_data p.model_size)
         p.signature p.signature_size = 0)) ∧
    (outcome o p = VerificationOutcome.Admitted ↔ (verify_model_signature o p).ret = 0) := by
  unfold verify_model_signature outcome
  by_cases hp : o.pk_parse_public_key PUBLIC_KEY_PEM = 0 <;>
  by_cases hs : o.sha256_starts_ret = 0 <;>
  by_cases hu : o.sha256_update_ret p.model_data p.model_size = 0 <;>
  by_cases hf : o.sha256_finish_ret = 0 <;>
  by_cases hv : o.pk_verify PUBLIC_KEY_PEM (o.sha256_digest p.model_data p.model_size)
    p.signature p.signature_size = 0 <;>
  simp [hp, hs, hu, hf, hv]

/-- C2: `load_model_safely` returns success exactly when the verification
outcome is `Admitted`, and every rejected outcome, whatever its reason,
produces the identical refusal `-1`. -/
theorem load_model_admits_only_verified (o : MbedTLS) (p : model_package_t) :
    load_model_safely o p =
      if (outcome o p).isAdmitted then 0 else -1 := by
  unfold load_model_safely verify_model_signature outcome
  by_cases hp : o.pk_parse_public_key PUBLIC_KEY_PEM = 0 <;>
  by_cases hs : o.sha256_starts_ret = 0 <;>
  by_cases hu : o.sha256_update_ret p.model_data p.model_size = 0 <;>
  by_cases hf : o.sha256_finish_ret = 0 <;>
  by_cases hv : o.pk_verify PUBLIC_KEY_PEM (o.sha256_digest p.model_data p.model_size)
    p.signature p.signature_size = 0 <;>
  simp [hp, hs, hu, hf, hv, VerificationOutcome.isAdmitted]

/-- C3: the crypto-primitive calls of every run of `verify_model_signature`
are exactly key parse, then the three digest steps over the entire payload,
then the signature check on the 32-byte digest, short-circuiting at the
first failing step; in particular no run reaches the signature check
without having computed the digest first. -/
theorem verify_primitive_call_order (o : MbedTLS) (p : model_package_t) :
    primitiveCalls (verify_model_signature o p).trace =
      (if o.pk_parse_public_key PUBLIC_KEY_PEM ≠ 0 then
        [Event.pk_parse_public_key PUBLIC_KEY_PEM]
      else if o.sha256_starts_ret ≠ 0 then
        [Event.pk_parse_public_key PUBLIC_KEY_PEM, Event.sha256_starts 0]
      else if o.sha256_update_ret p.model_data p.model_size ≠ 0 then
        [Event.pk_parse_public_key PUBLIC_KEY_PEM, Event.sha256_starts 0,
         Event.sha256_update p.model_data p.model_size]
      else if o.sha256_finish_ret ≠ 0 then
        [Event.pk_parse_public_key PUBLIC_KEY_PEM, Event.sha256_starts 0,
         Event.sha256_update p.model_data p.model_size, Event.sha256_finish]
      else
        [Event.pk_parse_public_key PUBLIC_KEY_PEM, Event.sha256_starts 0,
         Event.sha256_update p.model_data p.model_size, Event.sha256_finish,
         Event.pk_verify PUBLIC_KEY_PEM (o.sha256_digest p.model_data p.model_size) 32
           p.signature p.signature_size]) := by
  unfold verify_model_signature primitiveCalls
  by_cases hp : o.pk_parse_public_key PUBLIC_KEY_PEM = 0 <;>
  by_cases hs : o.sha256_starts_ret = 0 <;>
  by_cases hu : o.sha256_update_ret p.model_data p.model_size = 0 <;>
  by_cases hf : o.sha256_finish_ret = 0 <;>
  by_cases hv : o.pk_verify PUBLIC_KEY_PEM (o.sha256_digest p.model_data p.model_size)
    p.signature p.signature_size = 0 <;>
  simp [hp, hs, hu, hf, hv, isPrimitiveCall]

/-- C4: a run of `verify_model_signature` fails exactly when its exit path
is classified as one of the three closed rejection kinds, and the
`SignatureInvalid` kind is reported exactly when the digest pipeline
succeeded and the signature-check primitive returned any non-success code
whatsoever — the specific library diagnostic never changes the
classification. -/
theorem verify_failures_classified (o : MbedTLS) (p : model_package_t) :
    ((verify_model_signature o p).ret ≠ 0 ↔
      ∃ k, outcome o p = VerificationOutcome.Rejected k) ∧
    (outcome o p = VerificationOutcome.Rejected RejectReason.SignatureInvalid ↔
      (o.pk_parse_public_key PUBLIC_KEY_PEM = 0 ∧
       o.sha256_starts_ret = 0 ∧
       o.sha256_update_ret p.model_data p.model_size = 0 ∧
       o.sha256_finish_ret = 0 ∧
       o.pk_verify PUBLIC_KEY_PEM (o.sha256_digest p.model_data p.model_size)
         p.signature p.signature_size ≠ 0)) := by
  unfold verify_model_signature outcome
  by_cases hp : o.pk_parse_public_key PUBLIC_KEY_PEM = 0 <;>
  by_cases hs : o.sha256_starts_ret = 0 <;>
  by_cases hu : o.sha256_update_ret p.model_data p.model_size = 0 <;>
  by_cases hf : o.sha256_finish_ret = 0 <;>
  by_cases hv : o.pk_verify PUBLIC_KEY_PEM (o.sha256_digest p.model_data p.model_size)
    p.signature p.signature_size = 0 <;>
  simp [hp, hs, hu, hf, hv]

/-- C5 (counterexample): the trusted key is not a per-call input of
`verify_model_signature` — for two calls whose packages differ in every
field (payload, sizes, signature, identifier, version), the key handed to
the parse primitive is the same embedded global constant `PUBLIC_KEY_PEM`;
the call carries no key argument at all. -/
theorem verify_trusted_key_not_per_call_input :
    keysParsed (verify_model_signature oAllOk pA).trace = [PUBLIC_KEY_PEM] ∧
    keysParsed (verify_model_signature oAllOk pB).trace = [PUBLIC_KEY_PEM] ∧
    pA.model_data ≠ pB.model_data ∧ pA.signature ≠ pB.signature ∧
    pA.model_id ≠ pB.model_id ∧ pA.model_version ≠ pB.model_version :=
  ⟨rfl, rfl, by decide, by decide, by decide, by decide⟩

/-- C5 (amended): the outcome of `verify_model_signature` is a pure
function of the payload and the signature, with the trusted key fixed as
the embedded constant `PUBLIC_KEY_PEM`: every run parses exactly that key,
and two calls with identical payload and signature data yield the identical
return code and classification even when the diagnostic strings differ. -/
theorem verify_pure_function_of_payload_and_signature (o : MbedTLS)
    (p q : model_package_t)
    (hdata : p.model_data = q.model_data) (hsize : p.model_size = q.model_size)
    (hsig : p.signature = q.signature) (hslen : p.signature_size = q.signature_size) :
    keysParsed (verify_model_signature o p).trace = [PUBLIC_KEY_PEM] ∧
    (verify_model_signature o p).ret = (verify_model_signature o q).ret ∧
    outcome o p = outcome o q := by
  refine ⟨?_, ?_, ?_⟩
  · unfold verify_model_signature keysParsed
    by_cases hp : o.pk_parse_public_key PUBLIC_KEY_PEM = 0 <;>
    by_cases hs : o.sha256_starts_ret = 0 <;>
    by_cases hu : o.sha256_update_ret p.model_data p.model_size = 0 <;>
    by_cases hf : o.sha256_finish_ret = 0 <;>
    by_cases hv : o.pk_verify PUBLIC_KEY_PEM (o.sha256_digest p.model_data p.model_size)
      p.signature p.signature_size = 0 <;>
    simp [hp, hs, hu, hf, hv]
  · unfold verify_model_signature
    rw [hdata, hsize, hsig, hslen]
    by_cases hp : o.pk_parse_public_key PUBLIC_KEY_PEM = 0 <;>
    by_cases hs : o.sha256_starts_ret = 0 <;>
    by_cases hu : o.sha256_update_ret q.model_data q.model_size = 0 <;>
    by_cases hf : o.sha256_finish_ret = 0 <;>
    by_cases hv : o.pk_verify PUBLIC_KEY_PEM (o.sha256_digest q.model_data q.model_size)
      q.signature q.signature_size = 0 <;>
    simp [hp, hs, hu, hf, hv]
  · unfold outcome
    rw [hdata, hsize, hsig, hslen]

/-- C5 (witness for the amended theorem): two packages with the same
payload and signature but different identifier and version strings get the
same return code and the same classification, and both runs parse the
embedded constant key. -/
theorem verify_pure_function_witness :
    keysParsed (verify_model_signature oAllOk pA).trace = [PUBLIC_KEY_PEM] ∧
    (verify_model_signature oAllOk pA).ret = (verify_model_signature oAllOk pA2).ret ∧
    outcome oAllOk pA = outcome oAllOk pA2 :=
  verify_pure_function_of_payload_and_signature oAllOk pA pA2 rfl rfl rfl rfl

/-- C6: whenever parsing the trusted key fails, `verify_model_signature`
returns that non-zero parse code — so the package is never admitted — and
the exit path is classified `Rejected KeyParseError`. -/
theorem key_parse_failure_rejected (o : MbedTLS) (p : model_package_t)
    (h : o.pk_parse_public_key PUBLIC_KEY_PEM ≠ 0) :
    (verify_model_signature o p).ret = o.pk_parse_public_key PUBLIC_KEY_PEM ∧
    (verify_model_signature o p).ret ≠ 0 ∧
    outcome o p = VerificationOutcome.Rejected RejectReason.KeyParseError := by
  unfold verify_model_signature outcome
  simp [h]

/-- C6 (witness): with a collaborator whose key parsing fails with the
mbedTLS invalid-format code, verification of a concrete package returns
that code and is classified as a key-parse rejection. -/
theorem key_parse_failure_rejected_witness :
    (verify_model_signature oParseFail pA).ret =
      oParseFail.pk_parse_public_key PUBLIC_KEY_PEM ∧
    (verify_model_signature oParseFail pA).ret ≠ 0 ∧
    outcome oParseFail pA = VerificationOutcome.Rejected RejectReason.KeyParseError :=
  key_parse_failure_rejected oParseFail pA (by decide)

/-- C7: every run of `verify_model_signature` begins by initializing the
public-key and hash contexts and ends by releasing both (`mbedtls_pk_free`
then `mbedtls_sha256_free`), on every exit path, each released exactly
once — no path leaks a cryptographic context. -/
theorem verify_releases_contexts (o : MbedTLS) (p : model_package_t) :
    (verify_model_signature o p).trace.take 2 = [Event.pk_init, Event.sha256_init] ∧
    (verify_model_signature o p).trace.reverse.take 2 =
      [Event.sha256_free, Event.pk_free] ∧
    (verify_model_signature o p).trace.countP isPkFree = 1 ∧
    (verify_model_signature o p).trace.countP isSha256Free = 1 := by
  unfold verify_model_signature
  by_cases hp : o.pk_parse_public_key PUBLIC_KEY_PEM = 0 <;>
  by_cases hs : o.sha256_starts_ret = 0 <;>
  by_cases hu : o.sha256_update_ret p.model_data p.model_size = 0 <;>
  by_cases hf : o.sha256_finish_ret = 0 <;>
  by_cases hv : o.pk_verify PUBLIC_KEY_PEM (o.sha256_digest p.model_data p.model_size)
    p.signature p.signature_size = 0 <;>
  simp [hp, hs, hu, hf, hv, List.countP_cons, isPkFree, isSha256Free]

/-- C8 (counterexample): a run whose digest step fails emits no log line at
all — the outcome is a digest-computation rejection, yet the log trace of
the run is empty, so it is not true that every outcome emits a line naming
the model identifier and version. -/
theorem digest_failure_emits_no_log :
    logLines (verify_model_signature oStartsFail pB).trace = [] ∧
    (verify_model_signature oStartsFail pB).ret ≠ 0 ∧
    outcome oStartsFail pB =
      VerificationOutcome.Rejected RejectReason.DigestComputationError :=
  ⟨rfl, by decide, rfl⟩

/-- C8 (amended): the log lines of a run of `verify_model_signature` are:
the parse error code on a key-parse failure; nothing on a failure of any of
the three digest steps; a line with the model identifier and version
exactly on the `Admitted` outcome; and the verification error code —
without identifier or version — when the signature check fails. -/
theorem verify_log_lines (o : MbedTLS) (p : model_package_t) :
    logLines (verify_model_signature o p).trace =
      (if o.pk_parse_public_key PUBLIC_KEY_PEM ≠ 0 then
        [LogMsg.parseFailed (o.pk_parse_public_key PUBLIC_KEY_PEM)]
      else if o.sha256_starts_ret ≠ 0 then []
      else if o.sha256_update_ret p.model_data p.model_size ≠ 0 then []
      else if o.sha256_finish_ret ≠ 0 then []
      else if o.pk_verify PUBLIC_KEY_PEM (o.sha256_digest p.model_data p.model_size)
          p.signature p.signature_size = 0 then
        [LogMsg.verified p.model_id p.model_version]
      else
        [LogMsg.verifyFailed (o.pk_verify PUBLIC_KEY_PEM
          (o.sha256_digest p.model_data p.model_size) p.signature p.signature_size)]) := by
  unfold verify_model_signature logLines
  by_cases hp : o.pk_parse_public_key PUBLIC_KEY_PEM = 0 <;>
  by_cases hs : o.sha256_starts_ret = 0 <;>
  by_cases hu : o.sha256_update_ret p.model_data p.model_size = 0 <;>
  by_cases hf : o.sha256_finish_ret = 0 <;>
  by_cases hv : o.pk_verify PUBLIC_KEY_PEM (o.sha256_digest p.model_data p.model_size)
    p.signature p.signature_size = 0 <;>
  simp [hp, hs, hu, hf, hv]

/-- C9: `verify_model_signature` imposes no precondition on the package:
with an empty payload (`model_size = 0`) the hash primitive is invoked on
the empty buffer, the signature primitive still receives the digest and the
package's signature of whatever size, and the return code is exactly the
signature primitive's answer — emptiness is never by itself a rejection
reason. -/
theorem verify_no_input_preconditions (o : MbedTLS) (p : model_package_t)
    (hdata : p.model_data = []) (hsize : p.model_size = 0)
    (hp : o.pk_parse_public_key PUBLIC_KEY_PEM = 0)
    (hs : o.sha256_starts_ret = 0)
    (hu : o.sha256_update_ret [] 0 = 0)
    (hf : o.sha256_finish_ret = 0) :
    Event.sha256_update [] 0 ∈ (verify_model_signature o p).trace ∧
    Event.pk_verify PUBLIC_KEY_PEM (o.sha256_digest [] 0) 32
      p.signature p.signature_size ∈ (verify_model_signature o p).trace ∧
    (verify_model_signature o p).ret =
      o.pk_verify PUBLIC_KEY_PEM (o.sha256_digest [] 0) p.signature p.signature_size := by
  unfold verify_model_signature
  by_cases hv : o.pk_verify PUBLIC_KEY_PEM (o.sha256_digest [] 0)
    p.signature p.signature_size = 0 <;>
  simp [hdata, hsize, hp, hs, hu, hf, hv]

/-- C9 (witness): the empty-payload package with an all-accepting
collaborator reaches both primitives and is admitted. -/
theorem verify_no_input_preconditions_witness :
    Event.sha256_update [] 0 ∈ (verify_model_signature oAllOk pEmpty).trace ∧
    Event.pk_verify PUBLIC_KEY_PEM (oAllOk.sha256_digest [] 0) 32
      pEmpty.signature pEmpty.signature_size ∈
      (verify_model_signature oAllOk pEmpty).trace ∧
    (verify_model_signature oAllOk pEmpty).ret =
      oAllOk.pk_verify PUBLIC_KEY_PEM (oAllOk.sha256_digest [] 0)
        pEmpty.signature pEmpty.signature_size :=
  verify_no_input_preconditions oAllOk pEmpty rfl rfl rfl rfl rfl rfl

/-- C10: `load_model_safely` returns only `0` or `-1`, returning `0`
exactly when verification returned `0` — every non-zero verification code,
whatever its value, is normalized to `-1`, so the caller cannot recover the
failure cause from the return value. -/
theorem load_model_result_binary (o : MbedTLS) (p : model_package_t) :
    (load_model_safely o p = 0 ∨ load_model_safely o p = -1) ∧
    (load_model_safely o p = 0 ↔ (verify_model_signature o p).ret = 0) := by
  unfold load_model_safely
  by_cases h : (verify_model_signature o p).ret = 0 <;> simp [h]

end ModelVerification
